import Mathlib

/-!
# Verification of the brain-dump voice processor recording daemon

Shallow embedding of the repository code:
* `src/src/python/core/validators.py` (`FileValidator`)
* `src/src/python/core/error_handler.py` (`ErrorHandler`)
* `src/recorder.py` (`SimpleRecorder`)
* `src/archive/phase-c1-electron/src/python/config/settings.py` (constants)

Python byte strings are modelled as `List Nat`, exceptions as explicit
result values or as trace events, and printing to stdout/stderr as trace
events.  Nondeterminism of the outside world (device open failure, stream
close failure, file I/O failure, the wall clock) is passed in as explicit
parameters.
-/

namespace BrainDump

/-- A Python `bytes` buffer: a list of byte values. -/
abbrev ByteBuf := List Nat

/-! ## Python string primitives used by the source

These are character-level executable models of the Python string
operations the source uses, written with structural recursion so that
concrete instances evaluate inside the kernel. -/

/-- Whether `pat` is a leading segment of `s` (character lists). -/
def listLead : List Char → List Char → Bool
  | [], _ => true
  | _ :: _, [] => false
  | a :: as, b :: bs => if a = b then listLead as bs else false

/-- Whether `pat` occurs contiguously somewhere in `s` (character lists). -/
def occursIn (pat : List Char) : List Char → Bool
  | [] => pat.isEmpty
  | c :: rest => listLead pat (c :: rest) || occursIn pat rest

/-- Python `pattern in s` substring test. -/
def pyIn (pat s : String) : Bool :=
  occursIn pat.data s.data

/-- Python `s.startswith(pre)`. -/
def pyStartsWith (s pre : String) : Bool :=
  listLead pre.data s.data

/-- Python `s.endswith(suf)`. -/
def pyEndsWith (s suf : String) : Bool :=
  listLead suf.data.reverse s.data.reverse

/-- Split a character list on a separator character, keeping empty
pieces, as Python `s.split(sep)` and `str.splitOn` do. -/
def splitChar (sep : Char) : List Char → List (List Char)
  | [] => [[]]
  | c :: rest =>
    let r := splitChar sep rest
    if c = sep then [] :: r
    else
      match r with
      | [] => [[c]]
      | h :: t => (c :: h) :: t

/-- Join path components with slash separators. -/
def joinSlash : List String → String
  | [] => ""
  | [x] => x
  | x :: y :: xs => x ++ "/" ++ joinSlash (y :: xs)

/-- The characters Python `str.strip()` removes. -/
def isPySpace (c : Char) : Bool :=
  c = ' ' || c = '\t' || c = '\n' || c = '\r' || c = '\u000B' || c = '\u000C'

/-- Python `s.strip()`. -/
def pyStrip (s : String) : String :=
  String.mk (((s.data.dropWhile isPySpace).reverse.dropWhile isPySpace).reverse)

/-- Python `s.lower()` (ASCII case folding, which covers every extension
string the source compares). -/
def pyLower (s : String) : String :=
  String.mk (s.data.map Char.toLower)

/-- Python truthiness of an optional list (`if allowed_extensions:`):
`None` and the empty list are both falsy. -/
def pyTruthyList (x : Option (List String)) : Bool :=
  match x with
  | none => false
  | some l => !l.isEmpty

/-- Python truthiness of an optional string (`if base_dir:`):
`None` and the empty string are both falsy. -/
def pyTruthyStr (x : Option String) : Bool :=
  match x with
  | none => false
  | some s => s ≠ ""

/-- One step of `posixpath.normpath` component processing, for paths that
are interpreted as absolute: `""` and `"."` components vanish and `".."`
pops the previous component (at the root it is dropped). -/
def normStep (acc : List String) (c : String) : List String :=
  if c = "" || c = "." then acc
  else if c = ".." then acc.dropLast
  else acc ++ [c]

/-- `os.path.abspath`, modelled for a POSIX filesystem: a relative path is
joined onto the (absolute, normalised) current directory, then the result
is normalised. -/
def abspath (cwd p : String) : String :=
  let full := if pyStartsWith p "/" then p else cwd ++ "/" ++ p
  "/" ++ joinSlash (((splitChar '/' full.data).map String.mk).foldl normStep [])

/-- `os.path.join(a, b)` for the cases the recorder uses (a non-absolute
second argument). -/
def osPathJoin (a b : String) : String :=
  if a = "" then b
  else if pyEndsWith a "/" then a ++ b
  else a ++ "/" ++ b

/-- `pathlib.Path(p).suffix`: the extension of the final path component;
empty when the last dot is the first character of the component or when
there is no dot before the final character. -/
def pySuffix (p : String) : String :=
  let base := String.mk ((splitChar '/' p.data).getLastD p.data)
  let cs := base.data
  match ((List.range cs.length).filter (fun i => (cs.drop i).head? = some '.')).getLast? with
  | none => ""
  | some i => if 0 < i ∧ i < cs.length - 1 then String.mk (cs.drop i) else ""

/-! ## `config/settings.py`: the constants the validator reads -/

/-- `FileSettings.DANGEROUS_PATH_PATTERNS`: the tuple of the three
literal patterns dot-dot, tilde, dollar. -/
def DANGEROUS_PATH_PATTERNS : List String := ["..", "~", "$"]

/-- `FileSettings.ALLOWED_EXTENSIONS`: the frozenset of `.wav`, `.mp3`,
`.m4a`, `.flac`, `.ogg`, listed in the order written in the source. -/
def ALLOWED_EXTENSIONS : List String := [".wav", ".mp3", ".m4a", ".flac", ".ogg"]

/-! ## `core/validators.py`: `FileValidator` -/

/-- Outcome of `FileValidator.validate_path_safety`: either it returns
normally, or it raises `ValidationError` for a dangerous literal pattern,
or it raises `ValidationError` because the resolved path escapes the base
directory. -/
inductive PathCheck where
  | ok : PathCheck
  | dangerous (pat : String) : PathCheck
  | escapes : PathCheck
  deriving Repr, DecidableEq

/-- `FileValidator.validate_path_safety(file_path, base_dir)`.  Mirrors the
source: resolve `file_path` to an absolute path, raise on the first
dangerous pattern occurring literally in the raw `file_path`, then, if a
truthy `base_dir` was given, raise unless the absolute path starts (as a
string) with the absolute base. -/
def validate_path_safety (cwd : String) (file_path : String)
    (base_dir : Option String) : PathCheck :=
  let abs_path := abspath cwd file_path
  match DANGEROUS_PATH_PATTERNS.find? (fun pat => pyIn pat file_path) with
  | some pat => .dangerous pat
  | none =>
    if pyTruthyStr base_dir then
      let abs_base := abspath cwd (base_dir.getD "")
      if pyStartsWith abs_path abs_base then .ok else .escapes
    else .ok

/-- Outcome of `FileValidator.validate_extension`: normal return or
`ValidationError` carrying the offending extension. -/
inductive ExtCheck where
  | ok : ExtCheck
  | invalidExtension (ext : String) : ExtCheck
  deriving Repr, DecidableEq

/-- `FileValidator.validate_extension(file_path, allowed_extensions)`.
Mirrors the source: `extensions = allowed_extensions if allowed_extensions
else FileValidator.ALLOWED_EXTENSIONS` (Python truthiness, so `None` and
`[]` both select the default), then a case-insensitive suffix lookup. -/
def validate_extension (file_path : String)
    (allowed_extensions : Option (List String)) : ExtCheck :=
  let extensions :=
    if pyTruthyList allowed_extensions then allowed_extensions.getD []
    else ALLOWED_EXTENSIONS
  let file_ext := pyLower (pySuffix file_path)
  if extensions.contains file_ext then .ok
  else .invalidExtension file_ext

/-! ## `core/error_handler.py`: `ErrorHandler` -/

/-- `ErrorLevel` enum from `error_handler.py`. -/
inductive ErrorLevel where
  | INFO
  | WARNING
  | ERROR
  | CRITICAL
  deriving Repr, DecidableEq

/-- `ErrorLevel.value`: the string payload of each enum member. -/
def ErrorLevel.val : ErrorLevel → String
  | .INFO => "INFO"
  | .WARNING => "WARNING"
  | .ERROR => "ERROR"
  | .CRITICAL => "CRITICAL"

/-- An observer subscribed to the handler, identified abstractly; whether
its invocation raises is supplied externally (`fails` below). -/
abbrev Observer := Nat

/-- Mutable fields of the `ErrorHandler` singleton. -/
structure EHState where
  observers : List Observer
  errorCount : Nat
  deriving Repr, DecidableEq

/-- A line written to `sys.stderr` by `notify`. -/
inductive ELine where
  | observerFailure (o : Observer)
  | backup (formatted : String)
  | excTrace (excName : String)
  deriving Repr, DecidableEq

/-- The stderr lines produced by the `for observer in self._observers`
loop of `notify`: one `ObserverFailure` line per observer whose call
raises, in loop order. -/
def notifyLoopLines (fails : Observer → Bool) : List Observer → List ELine
  | [] => []
  | o :: rest =>
    (if fails o then [ELine.observerFailure o] else []) ++ notifyLoopLines fails rest

/-- `ErrorHandler.notify(level, context, error_type, message, exception)`.
Returns the new handler state, the list of observers invoked (in order),
and the stderr lines written.  Mirrors the source: bump the counter,
format `LEVEL:context:type:message`, invoke every observer catching any
exception it raises, always print the formatted backup line, and print the
exception trace when a cause is present at ERROR or CRITICAL level. -/
def notify (fails : Observer → Bool) (st : EHState) (level : ErrorLevel)
    (context error_type message : String) (exception : Option String) :
    EHState × List Observer × List ELine :=
  let st' : EHState := { st with errorCount := st.errorCount + 1 }
  let formatted := level.val ++ ":" ++ context ++ ":" ++ error_type ++ ":" ++ message
  let loopLines := notifyLoopLines fails st.observers
  let traceLines : List ELine :=
    match exception with
    | some e => if level = .ERROR ∨ level = .CRITICAL then [ELine.excTrace e] else []
    | none => []
  (st', st.observers, loopLines ++ [ELine.backup formatted] ++ traceLines)

/-! ## `recorder.py`: `SimpleRecorder` -/

/-- Local wall-clock time, as read by `datetime.now()`. -/
structure DateTime where
  year : Nat
  month : Nat
  day : Nat
  hour : Nat
  minute : Nat
  second : Nat
  deriving Repr, DecidableEq

/-- Zero-pad to two digits, as `strftime` does for `%m %d %H %M %S`. -/
def pad2 (n : Nat) : String :=
  if n < 10 then "0" ++ toString n else toString n

/-- Zero-pad to four digits, as `strftime` does for `%Y`. -/
def pad4 (n : Nat) : String :=
  if n < 10 then "000" ++ toString n
  else if n < 100 then "00" ++ toString n
  else if n < 1000 then "0" ++ toString n
  else toString n

/-- `datetime.now().strftime("%Y-%m-%d_%H-%M-%S")`. -/
def fmtTimestamp (d : DateTime) : String :=
  pad4 d.year ++ "-" ++ pad2 d.month ++ "-" ++ pad2 d.day ++ "_" ++
    pad2 d.hour ++ "-" ++ pad2 d.minute ++ "-" ++ pad2 d.second

/-- Mutable fields of `SimpleRecorder`.  `audio` records whether the
PyAudio instance is present (it is, in every recorder whose constructor
returned: a constructor failure is fatal).  The stream handle carries no
data of its own, only presence. -/
structure RecState where
  recording : Bool
  frames : List ByteBuf
  audio : Bool
  stream : Option Unit
  deriving Repr, DecidableEq

/-- The state of a freshly constructed `SimpleRecorder` after a
successful `__init__`. -/
def initState : RecState :=
  { recording := false, frames := [], audio := true, stream := none }

/-- The contents of a WAV file as produced by the `wave` module calls in
`save_wav`: header parameters plus the data payload. -/
structure WavFile where
  nchannels : Nat
  sampwidth : Nat
  framerate : Nat
  data : ByteBuf
  deriving Repr, DecidableEq

/-- Observable events of a recorder method, in program order:
protocol lines printed to stdout (`out`), `error_handler` notifications
(`rep`, level and kind), assignments to `self.recording` (`setRec`),
device stream open/close attempts, PyAudio termination, and WAV file
writes. -/
inductive Ev where
  | out (line : String)
  | rep (level : String) (kind : String)
  | setRec (b : Bool)
  | devOpen
  | devClose
  | audioTerm
  | fileWrite (path : String) (f : WavFile)
  deriving Repr, DecidableEq

/-- The protocol lines (stdout prints) contained in an event trace. -/
def outsOf (evs : List Ev) : List String :=
  evs.filterMap (fun e => match e with | .out l => some l | _ => none)

/-- Whether an event trace writes any file. -/
def writesFile (evs : List Ev) : Bool :=
  evs.any (fun e => match e with | .fileWrite _ _ => true | _ => false)

/-- The filename `f"recording_{timestamp}.wav"` built by `save_wav`. -/
def wavFilename (now : DateTime) : String :=
  "recording_" ++ fmtTimestamp now ++ ".wav"

/-- `SimpleRecorder.save_wav`, up to the `wave` I/O itself: build the
timestamped path under `output_dir`, run
`FileValidator.validate_output_path` (whose path-safety core is
`validate_path_safety(filepath, base_dir=output_dir)`), and on success
describe the WAV file the `wave` calls produce: `nchannels 1`,
`sampwidth 2`, `framerate 44100`, payload the byte join of `self.frames`.
A validation failure is the raised `ValidationError`, re-raised by
`save_wav` to its caller.  (The parent-directory check and the
`validate_file_exists` re-check are filesystem effects, covered by the
`ioOk` parameter of the caller.) -/
def save_wav (cwd output_dir : String) (now : DateTime)
    (frames : List ByteBuf) : Except String (String × WavFile) :=
  let filepath := osPathJoin output_dir (wavFilename now)
  match validate_path_safety cwd filepath (some output_dir) with
  | .dangerous pat => .error ("ValidationError:dangerous:" ++ pat)
  | .escapes => .error "ValidationError:escapes"
  | .ok =>
    .ok (filepath,
      { nchannels := 1, sampwidth := 2, framerate := 44100, data := frames.flatten })

/-- `SimpleRecorder.start`.  `openRes` is the outcome of
`self.audio.open(...)`: `none` for success, `some excName` when the open
raises.  Mirrors the source: warn and return when already recording; raise
(and catch) `RuntimeError` when PyAudio is absent; otherwise set
`recording = True`, clear `frames`, open the stream; any exception after
the guard resets `recording = False` and prints
`ERROR:RecordingStartFailed`. -/
def start (openRes : Option String) (s : RecState) : RecState × List Ev :=
  if s.recording then
    (s, [.rep "WARNING" "AlreadyRecording"])
  else if !s.audio then
    ({ s with recording := false },
     [.setRec false, .rep "ERROR" "RuntimeError", .out "ERROR:RecordingStartFailed"])
  else
    match openRes with
    | none =>
      ({ s with recording := true, frames := [], stream := some () },
       [.setRec true, .devOpen, .out "RECORDING_STARTED"])
    | some excName =>
      ({ s with recording := false, frames := [] },
       [.setRec true, .devOpen, .setRec false, .rep "ERROR" excName,
        .out "ERROR:RecordingStartFailed"])

/-- `SimpleRecorder.stop`.  `closeOk` is the outcome of
`stream.stop_stream(); stream.close()`; `ioOk` is the outcome of the
`wave` file I/O inside `save_wav`.  Mirrors the source: first
`self.recording = False`; then, if a stream handle is present, attempt to
close it (warning `StreamCloseError` on failure) and clear the handle in
a `finally`; then save and announce the path when `frames` is non-empty,
or warn `NoAudioData` and announce the `no_audio` sentinel when it is
empty; any exception raised out of `save_wav` is caught and surfaced as
`ERROR:RecordingStopFailed`. -/
def stop (cwd : String) (closeOk ioOk : Bool) (now : DateTime)
    (output_dir : String) (s : RecState) : RecState × List Ev :=
  let s1 : RecState := { s with recording := false }
  let closeEvs : List Ev :=
    match s1.stream with
    | none => []
    | some _ => if closeOk then [.devClose]
                else [.devClose, .rep "WARNING" "StreamCloseError"]
  let s2 : RecState := { s1 with stream := none }
  if s2.frames.isEmpty then
    (s2, [.setRec false] ++ closeEvs ++
      [.rep "WARNING" "NoAudioData", .out "RECORDING_STOPPED:no_audio"])
  else
    match save_wav cwd output_dir now s2.frames with
    | .ok (fp, wf) =>
      if ioOk then
        (s2, [.setRec false] ++ closeEvs ++
          [.fileWrite fp wf, .out ("RECORDING_STOPPED:" ++ fp)])
      else
        (s2, [.setRec false] ++ closeEvs ++
          [.rep "ERROR" "OSError", .out "ERROR:RecordingStopFailed"])
    | .error _ =>
      (s2, [.setRec false] ++ closeEvs ++
        [.rep "ERROR" "ValidationError", .out "ERROR:RecordingStopFailed"])

/-- `SimpleRecorder.audio_callback(in_data, frame_count, time_info,
status)`.  Warns on a non-zero status flag; appends `in_data` to the
frame buffer exactly when `self.recording` is true and `in_data` is
truthy (non-`None` and non-empty). -/
def audio_callback (s : RecState) (in_data : Option ByteBuf) (status : Nat) :
    RecState × List Ev :=
  let statusEvs : List Ev :=
    if status ≠ 0 then [.rep "WARNING" "AudioStreamWarning"] else []
  match in_data with
  | some b =>
    if s.recording ∧ !b.isEmpty then
      ({ s with frames := s.frames ++ [b] }, statusEvs)
    else (s, statusEvs)
  | none => (s, statusEvs)

/-- `SimpleRecorder.cleanup`.  Mirrors the source: attempt to close an
open stream (warning `StreamCleanupError` on failure) and to terminate
PyAudio (warning `AudioCleanupError` on failure).  Note the source clears
neither `self.stream` nor `self.audio` nor `self.recording`: the state is
returned unchanged. -/
def cleanup (closeOk termOk : Bool) (s : RecState) : RecState × List Ev :=
  let closeEvs : List Ev :=
    match s.stream with
    | none => []
    | some _ => if closeOk then [.devClose]
                else [.devClose, .rep "WARNING" "StreamCleanupError"]
  let termEvs : List Ev :=
    if s.audio then
      (if termOk then [.audioTerm]
       else [.audioTerm, .rep "WARNING" "AudioCleanupError"])
    else []
  (s, closeEvs ++ termEvs)

/-- The environment a processed command runs in: the current directory,
the configured output directory, the wall clock, and the outcomes of the
fallible external effects (device open, stream close, file I/O, PyAudio
termination). -/
structure Env where
  cwd : String
  output_dir : String
  now : DateTime
  openRes : Option String
  closeOk : Bool
  ioOk : Bool
  termOk : Bool
  deriving Repr, DecidableEq

/-- One iteration of the `for line in sys.stdin` loop of
`SimpleRecorder.run`: strip the line, dispatch `start` / `stop` / `quit`,
and warn `UnknownCommand` on anything else.  The returned `Bool` is
whether the loop continues (`quit` breaks). -/
def processCommand (env : Env) (s : RecState) (line : String) :
    RecState × List Ev × Bool :=
  let command := pyStrip line
  if command = "start" then
    let (s', evs) := start env.openRes s
    (s', evs, true)
  else if command = "stop" then
    let (s', evs) := stop env.cwd env.closeOk env.ioOk env.now env.output_dir s
    (s', evs, true)
  else if command = "quit" then
    let (s', evs) := cleanup env.closeOk env.termOk s
    (s', evs, false)
  else
    (s, [.rep "WARNING" "UnknownCommand"], true)

/-- The command loop of `SimpleRecorder.run` over a list of stdin lines:
process each line in order, stopping early when `quit` breaks the loop. -/
def runLines (env : Env) (s : RecState) : List String → RecState × List Ev
  | [] => (s, [])
  | line :: rest =>
    let (s', evs, cont) := processCommand env s line
    if cont then
      let (s'', evs') := runLines env s' rest
      (s'', evs ++ evs')
    else (s', evs)

/-- One abstract operation on the recorder, with the outcomes of its
external effects attached: the four entry points `start`, `stop`,
`cleanup` and the device callback. -/
inductive Op where
  | startOp (openRes : Option String)
  | stopOp (cwd : String) (closeOk ioOk : Bool) (now : DateTime) (output_dir : String)
  | cleanupOp (closeOk termOk : Bool)
  | callbackOp (in_data : Option ByteBuf) (status : Nat)
  deriving Repr, DecidableEq

/-- Execute one operation on a recorder state. -/
def execOp (s : RecState) : Op → RecState × List Ev
  | .startOp openRes => start openRes s
  | .stopOp cwd closeOk ioOk now output_dir => stop cwd closeOk ioOk now output_dir s
  | .cleanupOp closeOk termOk => cleanup closeOk termOk s
  | .callbackOp in_data status => audio_callback s in_data status

/-- Execute a sequence of operations from a given state, concatenating
the event traces. -/
def execOps (s : RecState) : List Op → RecState × List Ev
  | [] => (s, [])
  | op :: rest =>
    let (s', evs) := execOp s op
    let (s'', evs') := execOps s' rest
    (s'', evs ++ evs')

/-- Whether `start` succeeds from a given state with a given device-open
outcome: not already recording, PyAudio present, and the open does not
raise. -/
def startSucceeds (s : RecState) (openRes : Option String) : Bool :=
  !s.recording && s.audio && openRes.isNone

/-- Modelled from the spec: "a recording session is open (between a
successful `start` and the following `stop` or `cleanup`)".  Computed over
an operation sequence from the initial state: a successful `start` opens a
session; `stop` and `cleanup` close it. -/
def sessionOpenSpec (ops : List Op) : Bool :=
  (ops.foldl
    (fun (p : RecState × Bool) op =>
      let opened :=
        match op with
        | .startOp openRes => if startSucceeds p.1 openRes then true else p.2
        | .stopOp _ _ _ _ _ => false
        | .cleanupOp _ _ => false
        | .callbackOp _ _ => p.2
      ((execOp p.1 op).1, opened))
    (initState, false)).2

/-- A run of device callbacks delivering the given buffers in order, with
a clean status flag. -/
def runCallbacks (s : RecState) (bufs : List ByteBuf) : RecState :=
  bufs.foldl (fun st b => (audio_callback st (some b) 0).1) s

/-- Modelled from the spec: a resolved absolute path lies inside a base
directory exactly when it is the base itself or extends it at a path
component boundary.  Used only to state what "outside the base directory"
means in the path-safety claim; the source code implements a plain string
prefix test instead. -/
def withinDirSpec (abs base : String) : Bool :=
  abs = base || pyStartsWith abs (base ++ "/")

/-- A fixed wall-clock instant used by concrete witnesses. -/
def sampleNow : DateTime :=
  { year := 2025, month := 10, day := 25, hour := 14, minute := 30, second := 0 }

/-- A concrete environment (all external effects succeed) used by
concrete witnesses. -/
def sampleEnv : Env :=
  { cwd := "/cwd", output_dir := "/out", now := sampleNow,
    openRes := none, closeOk := true, ioOk := true, termOk := true }

/-! ## Supporting lemmas -/

theorem outsOf_append (a b : List Ev) : outsOf (a ++ b) = outsOf a ++ outsOf b := by
  simp [outsOf]

theorem notifyLoopLines_mem (fails : Observer → Bool) (obs : List Observer)
    (o : Observer) (ho : o ∈ obs) (hf : fails o = true) :
    ELine.observerFailure o ∈ notifyLoopLines fails obs := by
  induction obs with
  | nil => cases ho
  | cons x rest ih =>
    rcases List.mem_cons.mp ho with h | h
    · subst h
      simp [notifyLoopLines, hf]
    · simp only [notifyLoopLines, List.mem_append]
      exact Or.inr (ih h)

theorem runCallbacks_frames (bufs : List ByteBuf) (s : RecState)
    (hrec : s.recording = true) (hne : ∀ b ∈ bufs, b ≠ []) :
    runCallbacks s bufs = { s with frames := s.frames ++ bufs } := by
  induction bufs generalizing s with
  | nil => simp [runCallbacks]
  | cons b rest ih =>
    have hb : b ≠ [] := hne b (List.mem_cons_self b rest)
    have hb' : b.isEmpty = false := by
      cases b with
      | nil => exact absurd rfl hb
      | cons x xs => rfl
    have step : (audio_callback s (some b) 0).1 = { s with frames := s.frames ++ [b] } := by
      simp [audio_callback, hrec, hb']
    have tail := ih { s with frames := s.frames ++ [b] } hrec
      (fun c hc => hne c (List.mem_cons_of_mem b hc))
    simp only [runCallbacks, List.foldl_cons] at *
    rw [step, tail]
    simp

theorem isEmpty_false_of_ne {α : Type} {l : List α} (h : l ≠ []) :
    l.isEmpty = false := by
  cases l with
  | nil => exact absurd rfl h
  | cons x xs => rfl

theorem stop_state (cwd : String) (closeOk ioOk : Bool) (now : DateTime)
    (dir : String) (s : RecState) :
    (stop cwd closeOk ioOk now dir s).1 =
      { s with recording := false, stream := none } := by
  simp only [stop]
  split <;> (try split) <;> (try split) <;> rfl

theorem stop_trace_empty (cwd : String) (closeOk ioOk : Bool) (now : DateTime)
    (dir : String) (s : RecState) (h : s.frames = []) :
    outsOf (stop cwd closeOk ioOk now dir s).2 = ["RECORDING_STOPPED:no_audio"] ∧
    Ev.rep "WARNING" "NoAudioData" ∈ (stop cwd closeOk ioOk now dir s).2 ∧
    writesFile (stop cwd closeOk ioOk now dir s).2 = false := by
  unfold stop
  cases hs : s.stream <;> cases closeOk <;>
    simp [hs, h, outsOf, writesFile]

theorem stop_trace_nonempty_save (cwd : String) (closeOk : Bool)
    (now : DateTime) (dir : String) (s : RecState) (fp : String) (wf : WavFile)
    (hne : s.frames ≠ [])
    (hsv : save_wav cwd dir now s.frames = Except.ok (fp, wf)) :
    Ev.fileWrite fp wf ∈ (stop cwd closeOk true now dir s).2 ∧
    outsOf (stop cwd closeOk true now dir s).2 = ["RECORDING_STOPPED:" ++ fp] := by
  have hh : s.frames.isEmpty = false := isEmpty_false_of_ne hne
  unfold stop
  cases hs : s.stream <;> cases closeOk <;>
    simp [hs, hh, hsv, outsOf]

theorem start_state_already (openRes : Option String) (s : RecState)
    (h : s.recording = true) : (start openRes s).1 = s := by
  simp [start, h]

theorem start_state_fail (excName : String) (s : RecState)
    (h0 : s.recording = false) (ha : s.audio = true) :
    (start (some excName) s).1 =
      { s with recording := false, frames := [] } := by
  simp [start, h0, ha]

theorem start_state_ok (s : RecState)
    (h0 : s.recording = false) (ha : s.audio = true) :
    (start none s).1 =
      { s with recording := true, frames := [], stream := some () } := by
  simp [start, h0, ha]

theorem execOp_preserves_stream_iff (s : RecState) (op : Op)
    (h : s.stream.isSome = s.recording) :
    (execOp s op).1.stream.isSome = (execOp s op).1.recording := by
  obtain ⟨rec, frames, audio, stream⟩ := s
  cases op with
  | startOp openRes =>
    cases rec <;> cases audio <;> cases stream <;> cases openRes <;>
      simp_all [execOp, start]
  | stopOp cwd closeOk ioOk now dir =>
    simp [execOp, stop_state]
  | cleanupOp closeOk termOk =>
    simpa [execOp, cleanup] using h
  | callbackOp in_data status =>
    cases in_data with
    | none => simpa [execOp, audio_callback] using h
    | some b =>
      simp only [execOp, audio_callback]
      split <;> simpa using h

theorem execOps_fst_cons (s : RecState) (op : Op) (rest : List Op) :
    (execOps s (op :: rest)).1 = (execOps (execOp s op).1 rest).1 := by
  simp [execOps]

theorem execOps_preserves_stream_iff (ops : List Op) (s : RecState)
    (h : s.stream.isSome = s.recording) :
    (execOps s ops).1.stream.isSome = (execOps s ops).1.recording := by
  induction ops generalizing s with
  | nil => simpa [execOps] using h
  | cons op rest ih =>
    rw [execOps_fst_cons]
    exact ih _ (execOp_preserves_stream_iff s op h)

/-! ## Claim theorems -/

/-- C10: `validate_extension` called with an explicitly supplied empty
list of allowed extensions behaves exactly like a call with no list at
all; Python truthiness makes both fall back to the default whitelist
rather than rejecting every extension. -/
theorem validate_extension_empty_list_eq_default (p : String) :
    validate_extension p (some []) = validate_extension p none := rfl

/-- C2: calling `start` while already recording returns the state
unchanged and produces exactly one WARNING report of kind
AlreadyRecording: no protocol output, no device open, no transition. -/
theorem start_idempotent_while_recording (openRes : Option String)
    (s : RecState) (h : s.recording = true) :
    start openRes s = (s, [Ev.rep "WARNING" "AlreadyRecording"]) := by
  simp [start, h]

/-- Witness for C2 at a concrete recording state. -/
theorem start_idempotent_while_recording_witness :
    start none { recording := true, frames := [[1, 2]], audio := true, stream := some () } =
      ({ recording := true, frames := [[1, 2]], audio := true, stream := some () },
       [Ev.rep "WARNING" "AlreadyRecording"]) :=
  start_idempotent_while_recording none
    { recording := true, frames := [[1, 2]], audio := true, stream := some () } rfl

/-- C8: `notify` increments the error counter by exactly one, invokes
every subscribed observer in order whatever subset of them fails, always
writes the backup formatted line `LEVEL:context:kind:message` to the
error stream, and reports (rather than propagates) each failing observer
with an ObserverFailure line, so one broken observer never prevents the
others from running. -/
theorem notify_isolates_observer_failures (fails : Observer → Bool)
    (st : EHState) (level : ErrorLevel) (context kind msg : String)
    (exc : Option String) :
    (notify fails st level context kind msg exc).1.errorCount = st.errorCount + 1 ∧
    (notify fails st level context kind msg exc).2.1 = st.observers ∧
    ELine.backup (level.val ++ ":" ++ context ++ ":" ++ kind ++ ":" ++ msg) ∈
      (notify fails st level context kind msg exc).2.2 ∧
    (∀ o ∈ st.observers, fails o = true →
      ELine.observerFailure o ∈ (notify fails st level context kind msg exc).2.2) := by
  refine ⟨rfl, rfl, ?_, ?_⟩
  · simp [notify]
  · intro o ho hf
    simp only [notify, List.mem_append]
    exact Or.inl (Or.inl (notifyLoopLines_mem fails st.observers o ho hf))

/-- Witness for C8 at concrete arguments with a failing middle observer. -/
theorem notify_isolates_observer_failures_witness :
    ((notify (fun o => o = 1) { observers := [0, 1, 2], errorCount := 5 }
        ErrorLevel.WARNING "ctx" "SomeKind" "msg" none).1.errorCount = 6) ∧
    ((notify (fun o => o = 1) { observers := [0, 1, 2], errorCount := 5 }
        ErrorLevel.WARNING "ctx" "SomeKind" "msg" none).2.1 = [0, 1, 2]) ∧
    (ELine.observerFailure 1 ∈ (notify (fun o => o = 1)
        { observers := [0, 1, 2], errorCount := 5 }
        ErrorLevel.WARNING "ctx" "SomeKind" "msg" none).2.2) := by
  obtain ⟨h1, h2, _, h4⟩ := notify_isolates_observer_failures (fun o => o = 1)
    { observers := [0, 1, 2], errorCount := 5 } ErrorLevel.WARNING "ctx" "SomeKind" "msg" none
  exact ⟨h1, h2, h4 1 (by decide) (by decide)⟩

/-- C1: the frames accumulated between a successful `start` and the
following `stop` are exactly the buffers the device callback delivered,
in arrival order, and `save_wav` on that buffer produces a file whose
payload is their byte concatenation, with one channel, two-byte samples
and a 44100 Hz frame rate, at the timestamped filename under the
configured output directory. -/
theorem wav_payload_is_frame_concat (cwd dir : String) (now : DateTime)
    (bufs : List ByteBuf) (s : RecState)
    (h0 : s.recording = false) (ha : s.audio = true)
    (hne : ∀ b ∈ bufs, b ≠ [])
    (hval : validate_path_safety cwd (osPathJoin dir (wavFilename now))
      (some dir) = PathCheck.ok) :
    (runCallbacks (start none s).1 bufs).frames = bufs ∧
    save_wav cwd dir now (runCallbacks (start none s).1 bufs).frames =
      Except.ok (osPathJoin dir ("recording_" ++ fmtTimestamp now ++ ".wav"),
        { nchannels := 1, sampwidth := 2, framerate := 44100,
          data := bufs.flatten }) := by
  have hstart := start_state_ok s h0 ha
  have hframes : (runCallbacks (start none s).1 bufs).frames = bufs := by
    rw [hstart, runCallbacks_frames bufs _ rfl hne]
    simp
  refine ⟨hframes, ?_⟩
  rw [hframes]
  simp only [save_wav, wavFilename] at hval ⊢
  rw [hval]

/-- Witness for C1 at two concrete buffers. -/
theorem wav_payload_is_frame_concat_witness :
    (runCallbacks (start none initState).1 [[1, 2], [3]]).frames = [[1, 2], [3]] ∧
    save_wav "/cwd" "/out" sampleNow
        (runCallbacks (start none initState).1 [[1, 2], [3]]).frames =
      Except.ok (osPathJoin "/out" ("recording_" ++ fmtTimestamp sampleNow ++ ".wav"),
        { nchannels := 1, sampwidth := 2, framerate := 44100,
          data := [1, 2, 3] }) :=
  wav_payload_is_frame_concat "/cwd" "/out" sampleNow [[1, 2], [3]] initState
    rfl rfl (by decide) (by decide)

/-- C3: `stop` with an empty frame buffer emits exactly the protocol line
for the `no_audio` sentinel, reports a WARNING of kind NoAudioData and
writes no file; `stop` with a non-empty buffer whose save succeeds writes
the WAV file built from the buffer and emits the stopped line carrying
the written path. -/
theorem stop_no_audio_or_saves (cwd : String) (closeOk ioOk : Bool)
    (now : DateTime) (dir : String) (s : RecState) :
    (s.frames = [] →
      outsOf (stop cwd closeOk ioOk now dir s).2 = ["RECORDING_STOPPED:no_audio"] ∧
      Ev.rep "WARNING" "NoAudioData" ∈ (stop cwd closeOk ioOk now dir s).2 ∧
      writesFile (stop cwd closeOk ioOk now dir s).2 = false) ∧
    (∀ fp wf, s.frames ≠ [] →
      save_wav cwd dir now s.frames = Except.ok (fp, wf) →
      Ev.fileWrite fp wf ∈ (stop cwd closeOk true now dir s).2 ∧
      outsOf (stop cwd closeOk true now dir s).2 = ["RECORDING_STOPPED:" ++ fp]) := by
  exact ⟨fun h => stop_trace_empty cwd closeOk ioOk now dir s h,
    fun fp wf hne hsv => stop_trace_nonempty_save cwd closeOk now dir s fp wf hne hsv⟩

/-- Witness for C3: the empty case at the initial state and the non-empty
case at a one-buffer recording state. -/
theorem stop_no_audio_or_saves_witness :
    outsOf (stop "/cwd" true true sampleNow "/out" initState).2 =
      ["RECORDING_STOPPED:no_audio"] ∧
    Ev.fileWrite (osPathJoin "/out" (wavFilename sampleNow))
        { nchannels := 1, sampwidth := 2, framerate := 44100, data := [7, 8] } ∈
      (stop "/cwd" true true sampleNow "/out"
        { recording := true, frames := [[7, 8]], audio := true, stream := some () }).2 := by
  refine ⟨((stop_no_audio_or_saves "/cwd" true true sampleNow "/out" initState).1 rfl).1, ?_⟩
  exact ((stop_no_audio_or_saves "/cwd" true true sampleNow "/out"
      { recording := true, frames := [[7, 8]], audio := true, stream := some () }).2
    (osPathJoin "/out" (wavFilename sampleNow))
    { nchannels := 1, sampwidth := 2, framerate := 44100, data := [7, 8] }
    (by decide) rfl).1

/-- C9: when the device open raises during a `start` issued while not
recording, the handler leaves the recording flag false and the frame
buffer empty (even if stale frames from an earlier session were still
buffered), emits the RecordingStartFailed protocol line, and a `stop`
issued next emits exactly the `no_audio` sentinel line. -/
theorem failed_start_clears_state (s : RecState) (excName cwd dir : String)
    (closeOk ioOk : Bool) (now : DateTime)
    (h0 : s.recording = false) (ha : s.audio = true) :
    (start (some excName) s).1.recording = false ∧
    (start (some excName) s).1.frames = [] ∧
    Ev.out "ERROR:RecordingStartFailed" ∈ (start (some excName) s).2 ∧
    outsOf (stop cwd closeOk ioOk now dir (start (some excName) s).1).2 =
      ["RECORDING_STOPPED:no_audio"] := by
  have hst := start_state_fail excName s h0 ha
  refine ⟨by rw [hst], by rw [hst], by simp [start, h0, ha], ?_⟩
  exact (stop_trace_empty cwd closeOk ioOk now dir _ (by rw [hst])).1

/-- Witness for C9 at a state with stale frames from an earlier session. -/
theorem failed_start_clears_state_witness :
    (start (some "OSError")
      { recording := false, frames := [[7]], audio := true, stream := none }).1.frames = [] ∧
    outsOf (stop "/cwd" true true sampleNow "/out"
      (start (some "OSError")
        { recording := false, frames := [[7]], audio := true, stream := none }).1).2 =
      ["RECORDING_STOPPED:no_audio"] := by
  obtain ⟨_, h2, _, h4⟩ := failed_start_clears_state
    { recording := false, frames := [[7]], audio := true, stream := none }
    "OSError" "/cwd" "/out" true true sampleNow rfl rfl
  exact ⟨h2, h4⟩

/-- C4, evaluated at the failing input: after a successful `start`
followed by `cleanup`, the session is no longer open in the sense of the
claim (between a successful start and the following stop or cleanup), yet
the stream handle is still non-null, because `cleanup` closes the device
without clearing `self.stream`.  The repository test expecting exactly
one close on quit contradicts this, since `run` calls `cleanup` twice and
the surviving handle is closed again. -/
theorem stream_handle_survives_cleanup :
    (execOps initState [Op.startOp none, Op.cleanupOp true true]).1.stream.isSome = true ∧
    sessionOpenSpec [Op.startOp none, Op.cleanupOp true true] = false := by
  decide

/-- The invariant the code does maintain: in every state reachable by
start, stop, cleanup and the device callback, the stream handle is
non-null exactly when the recording flag is true; `cleanup` changes
neither, so the handle survives a cleanup that ends the session. -/
theorem stream_nonnull_iff_recording_flag (ops : List Op) :
    (execOps initState ops).1.stream.isSome = (execOps initState ops).1.recording :=
  execOps_preserves_stream_iff ops initState rfl

/-- C5 amended: `validate_path_safety` fails on any path containing one
of the literal dangerous substrings, independently of the base directory;
when no pattern occurs and a truthy base directory is given, it fails
exactly when the resolved absolute path does not extend the resolved
absolute base as a plain string prefix (so a sibling sharing the base as
a string prefix is accepted even though it lies outside the base). -/
theorem path_safety_literal_patterns_and_base_check (cwd p : String)
    (b : Option String) :
    ((pyIn ".." p || pyIn "~" p || pyIn "$" p) = true →
      (validate_path_safety cwd p b = PathCheck.dangerous ".." ∨
       validate_path_safety cwd p b = PathCheck.dangerous "~" ∨
       validate_path_safety cwd p b = PathCheck.dangerous "$")) ∧
    ((pyIn ".." p || pyIn "~" p || pyIn "$" p) = false → pyTruthyStr b = true →
      pyStartsWith (abspath cwd p) (abspath cwd (b.getD "")) = false →
      validate_path_safety cwd p b = PathCheck.escapes) ∧
    ((pyIn ".." p || pyIn "~" p || pyIn "$" p) = false →
      (pyTruthyStr b = true →
        pyStartsWith (abspath cwd p) (abspath cwd (b.getD "")) = true) →
      validate_path_safety cwd p b = PathCheck.ok) := by
  refine ⟨?_, ?_, ?_⟩
  · intro h
    by_cases h1 : pyIn ".." p
    · exact Or.inl (by simp [validate_path_safety, DANGEROUS_PATH_PATTERNS, List.find?, h1])
    · by_cases h2 : pyIn "~" p
      · exact Or.inr (Or.inl
          (by simp [validate_path_safety, DANGEROUS_PATH_PATTERNS, List.find?, h1, h2]))
      · have h3 : pyIn "$" p = true := by
          simpa [h1, h2] using h
        exact Or.inr (Or.inr
          (by simp [validate_path_safety, DANGEROUS_PATH_PATTERNS, List.find?, h1, h2, h3]))
  · intro h hb hsw
    simp only [Bool.or_eq_false_iff] at h
    obtain ⟨⟨ha1, ha2⟩, ha3⟩ := h
    simp [validate_path_safety, DANGEROUS_PATH_PATTERNS, List.find?,
      ha1, ha2, ha3, hb, hsw]
  · intro h himp
    simp only [Bool.or_eq_false_iff] at h
    obtain ⟨⟨ha1, ha2⟩, ha3⟩ := h
    by_cases hb : pyTruthyStr b
    · simp [validate_path_safety, DANGEROUS_PATH_PATTERNS, List.find?,
        ha1, ha2, ha3, hb, himp hb]
    · simp [validate_path_safety, DANGEROUS_PATH_PATTERNS, List.find?,
        ha1, ha2, ha3, hb]

/-- C5 counterexample: the sibling path `/a/bc` resolves outside the base
directory `/a/b`, but `validate_path_safety` accepts it because the
string-prefix test succeeds. -/
theorem path_safety_accepts_prefix_sibling :
    validate_path_safety "/cwd" "/a/bc" (some "/a/b") = PathCheck.ok ∧
    withinDirSpec (abspath "/cwd" "/a/bc") (abspath "/cwd" "/a/b") = false := by
  decide

/-- Witness for the amended C5 at a concrete safe path inside its base. -/
theorem path_safety_literal_patterns_and_base_check_witness :
    validate_path_safety "/cwd" "/safe/f.wav" (some "/safe") = PathCheck.ok :=
  (path_safety_literal_patterns_and_base_check "/cwd" "/safe/f.wav"
    (some "/safe")).2.2 (by decide) (fun _ => by decide)

/-- C6: the very first action of `stop` is the assignment of false to the
recording flag, so it precedes every stream close attempt; a device
callback that observes a false flag leaves the state (in particular the
frame buffer) unchanged, and a buffer already appended before `stop`
reads the buffer ends up inside the saved WAV payload. -/
theorem stop_resets_flag_before_close (cwd : String) (closeOk ioOk : Bool)
    (now : DateTime) (dir : String) (s : RecState) :
    ((stop cwd closeOk ioOk now dir s).2).head? = some (Ev.setRec false) ∧
    (∀ s2 d st, s2.recording = false → (audio_callback s2 d st).1 = s2) ∧
    (∀ fs b fp wf, b ≠ [] → s.frames = fs ++ [b] →
      save_wav cwd dir now s.frames = Except.ok (fp, wf) →
      wf.data = fs.flatten ++ b ∧
      Ev.fileWrite fp wf ∈ (stop cwd closeOk true now dir s).2) := by
  refine ⟨?_, ?_, ?_⟩
  · simp only [stop]
    split <;> (try split) <;> (try split) <;> rfl
  · intro s2 d st h
    cases d with
    | none => rfl
    | some bb => simp [audio_callback, h]
  · intro fs b fp wf hb hsf hsv
    have hne : s.frames ≠ [] := by
      rw [hsf]
      simp
    refine ⟨?_, (stop_trace_nonempty_save cwd closeOk now dir s fp wf hne hsv).1⟩
    cases hv : validate_path_safety cwd (osPathJoin dir (wavFilename now)) (some dir) with
    | ok =>
      simp only [save_wav, hv, Except.ok.injEq, Prod.mk.injEq] at hsv
      rw [← hsv.2, hsf]
      simp
    | dangerous pat => simp [save_wav, hv] at hsv
    | escapes => simp [save_wav, hv] at hsv

/-- Witness for C6 at a concrete recording state with two buffers. -/
theorem stop_resets_flag_before_close_witness :
    ((stop "/cwd" true true sampleNow "/out"
        { recording := true, frames := [[1, 2], [3]], audio := true,
          stream := some () }).2).head? = some (Ev.setRec false) ∧
    Ev.fileWrite (osPathJoin "/out" (wavFilename sampleNow))
        { nchannels := 1, sampwidth := 2, framerate := 44100, data := [1, 2, 3] } ∈
      (stop "/cwd" true true sampleNow "/out"
        { recording := true, frames := [[1, 2], [3]], audio := true,
          stream := some () }).2 := by
  obtain ⟨h1, _, h3⟩ := stop_resets_flag_before_close "/cwd" true true sampleNow "/out"
    { recording := true, frames := [[1, 2], [3]], audio := true, stream := some () }
  exact ⟨h1, (h3 [[1, 2]] [3] (osPathJoin "/out" (wavFilename sampleNow))
    { nchannels := 1, sampwidth := 2, framerate := 44100, data := [1, 2, 3] }
    (by decide) rfl rfl).2⟩

/-- C7 counterexample: the loop strips each line before dispatch, so the
line consisting of start followed by a space is not literally one of the
three commands yet still flips the recording flag. -/
theorem untrimmed_start_line_changes_state :
    ("start " ≠ "start" ∧ "start " ≠ "stop" ∧ "start " ≠ "quit") ∧
    (processCommand sampleEnv initState "start ").1.recording = true ∧
    initState.recording = false := by
  decide

/-- C7 amended: every input line whose whitespace-stripped form is not
one of the three commands leaves the state unchanged, reports exactly one
WARNING of kind UnknownCommand, does not break the loop, and the loop
goes on to process the remaining lines from the same state. -/
theorem unknown_trimmed_command_is_noop (env : Env) (s : RecState)
    (line : String) (rest : List String)
    (h1 : pyStrip line ≠ "start") (h2 : pyStrip line ≠ "stop")
    (h3 : pyStrip line ≠ "quit") :
    processCommand env s line = (s, [Ev.rep "WARNING" "UnknownCommand"], true) ∧
    runLines env s (line :: rest) =
      ((runLines env s rest).1,
        Ev.rep "WARNING" "UnknownCommand" :: (runLines env s rest).2) := by
  have hp : processCommand env s line = (s, [Ev.rep "WARNING" "UnknownCommand"], true) := by
    simp [processCommand, h1, h2, h3]
  refine ⟨hp, ?_⟩
  simp [runLines, hp]

/-- Witness for the amended C7 at a concrete unknown command. -/
theorem unknown_trimmed_command_is_noop_witness :
    processCommand sampleEnv initState "frobnicate" =
      (initState, [Ev.rep "WARNING" "UnknownCommand"], true) :=
  (unknown_trimmed_command_is_noop sampleEnv initState "frobnicate" []
    (by decide) (by decide) (by decide)).1

end BrainDump
